import Mathlib

/-!
Shallow embedding of `baseballpress.py`: a scraper that turns a lineup page
for one date into a date → games → teams → players hierarchy and flattens
it into tabular records.

Texts are modelled as `List Char`.  BeautifulSoup regions are modelled as
structures holding exactly the data the source reads from them.  Python
exceptions are modelled by `PyErr` and fallible code returns `Except PyErr`.
-/

/-- Python exceptions the source can raise, with their messages. -/
inductive PyErr where
  | valueError (msg : String)
  | typeError (msg : String)
  | indexError (msg : String)
  | attributeError (msg : String)
  | nameError (msg : String)
  deriving DecidableEq

/-- Message of the ValueError raised by `DateGames.parse` when no game card
survives validation. -/
def noGamesMsg : String := "No games discovered on this date."

/-- Message of the TypeError raised by Python int applied to None. -/
def intOfNoneMsg : String := "int argument must be a string or a number, not NoneType"

/-- Message of the ValueError raised by Python int on a non-numeric string. -/
def intLiteralMsg : String := "invalid literal for int with base 10"

/-- Message of an IndexError on list subscripts. -/
def listIndexMsg : String := "list index out of range"

/-- Message of the ValueError raised by unpacking a too-short list. -/
def unpackTooFewMsg : String := "not enough values to unpack"

/-- Message of the ValueError raised by unpacking a too-long list. -/
def unpackTooManyMsg : String := "too many values to unpack"

/-- Message of an AttributeError from calling select on None. -/
def noneSelectMsg : String := "NoneType object has no attribute select"

/-- Message of an AttributeError from calling select_one on None. -/
def noneSelectOneMsg : String := "NoneType object has no attribute select_one"

/-- Message of an AttributeError from calling get_text on None. -/
def noneGetTextMsg : String := "NoneType object has no attribute get_text"

/-- Message of an AttributeError from reading attrs on None. -/
def noneAttrsMsg : String := "NoneType object has no attribute attrs"

/-- Message of an AttributeError from calling split on None. -/
def noneSplitMsg : String := "NoneType object has no attribute split"

/-- Message of the NameError raised in `Team._parse_rotation` when the loop
variable batter is read after a loop that never ran. -/
def unboundBatterMsg : String := "local variable batter referenced before assignment"

/-- Whitespace characters of Python str.strip and str.isspace (ASCII part). -/
def isPySpace (c : Char) : Bool :=
  c == ' ' || c == '\t' || c == '\n' || c == '\r' || c == '\x0b' || c == '\x0c'

/-- Python str.strip: drop whitespace from both ends. -/
def pyStrip (s : List Char) : List Char :=
  ((s.dropWhile isPySpace).reverse.dropWhile isPySpace).reverse

/-- Python substring membership, the in operator on strings. -/
def pyIn (needle : List Char) : List Char → Bool
  | [] => needle.isEmpty
  | c :: t => List.isPrefixOf needle (c :: t) || pyIn needle t

/-- Helper of `pySplitlines`: accumulate the current line (reversed). -/
def splitlinesGo : List Char → List Char → List (List Char)
  | [], acc => [acc.reverse]
  | '\r' :: '\n' :: rest, acc =>
    acc.reverse :: (if rest.isEmpty then [] else splitlinesGo rest [])
  | '\n' :: rest, acc =>
    acc.reverse :: (if rest.isEmpty then [] else splitlinesGo rest [])
  | '\r' :: rest, acc =>
    acc.reverse :: (if rest.isEmpty then [] else splitlinesGo rest [])
  | c :: rest, acc => splitlinesGo rest (c :: acc)

/-- Python str.splitlines restricted to the usual line breaks LF, CR, CRLF. -/
def pySplitlines (s : List Char) : List (List Char) :=
  if s.isEmpty then [] else splitlinesGo s []

/-- Value of a nonempty run of decimal digit characters. -/
def digitsToNat (ds : List Char) : Nat :=
  ds.foldl (fun a c => 10 * a + (c.toNat - 48)) 0

/-- Source: `extract_int` — the first contiguous run of decimal digits, as
found by re.search and fed to int, or None when no digit occurs. -/
def extract_int : List Char → Option Nat
  | [] => none
  | c :: rest =>
    if c.isDigit then some (digitsToNat (c :: rest.takeWhile Char.isDigit))
    else extract_int rest

/-- Python int applied to a string: optional surrounding whitespace, an
optional sign, then a nonempty run of decimal digits; anything else raises
ValueError, modelled as none. -/
def pyIntOfString (s : List Char) : Option Int :=
  match pyStrip s with
  | '+' :: ds =>
    if ds.isEmpty then none
    else if ds.all Char.isDigit then some (Int.ofNat (digitsToNat ds)) else none
  | '-' :: ds =>
    if ds.isEmpty then none
    else if ds.all Char.isDigit then some (-(Int.ofNat (digitsToNat ds))) else none
  | ds =>
    if ds.isEmpty then none
    else if ds.all Char.isDigit then some (Int.ofNat (digitsToNat ds)) else none

/-- Source: `Player._clean_player` — split into lines, keep the lines that
are nonempty and not all whitespace, strip each survivor. -/
def clean_player (s : List Char) : List (List Char) :=
  ((pySplitlines s).filter (fun l => l.any (fun c => !(isPySpace c)))).map pyStrip

/-- Python str.split with an explicit single-character separator: empty
pieces between consecutive separators are kept. -/
def pySplitOn (sep : Char) : List Char → List (List Char)
  | [] => [[]]
  | c :: rest =>
    let r := pySplitOn sep rest
    if c == sep then [] :: r
    else
      match r with
      | [] => [[c]]
      | h :: t => (c :: h) :: t

/-- Record values: the Python scalars occurring in the flattened records. -/
inductive Value where
  | vNone
  | vInt (n : Int)
  | vStr (s : List Char)
  | vBool (b : Bool)
  deriving DecidableEq

/-- Python dict with string keys, as an insertion-ordered association list
with unique keys. -/
abbrev Dict := List (String × Value)

/-- First value stored under a key, if any. -/
def dictGet : Dict → String → Option Value
  | [], _ => none
  | (k, v) :: d, key => if k == key then some v else dictGet d key

/-- Python dict assignment: update the key in place when present, append
the pair otherwise. -/
def dictSet : Dict → String → Value → Dict
  | [], key, v => [(key, v)]
  | (k, v0) :: rest, key, v =>
    if k == key then (k, v) :: rest else (k, v0) :: dictSet rest key v

/-- Python double-splat merge: the second dict assigned entry by entry onto
the first. -/
def dictMerge (a b : Dict) : Dict :=
  b.foldl (fun acc p => dictSet acc p.1 p.2) a

/-- Lift an optional integer into a record value. -/
def vOptInt : Option Int → Value
  | none => .vNone
  | some n => .vInt n

/-- Lift an optional natural number into a record value. -/
def vOptNat : Option Nat → Value
  | none => .vNone
  | some n => .vInt (Int.ofNat n)

/-- Lift an optional text into a record value. -/
def vOptStr : Option (List Char) → Value
  | none => .vNone
  | some s => .vStr s

/-- Anchor element of a player region: the data the source reads from the
result of select_one applied to a. -/
structure Anchor where
  desktop_name : Option (List Char)
  text : List Char
  data_mlb : Option (List Char)
  deriving DecidableEq

/-- Player region (one .player element): its text and its anchor, the
anchor being none when the region has no anchor element. -/
structure PlayerRegion where
  text : List Char
  a : Option Anchor
  deriving DecidableEq

/-- Rotation region (one team column of the card body): its text and its
.player sub-regions in document order. -/
structure RotationRegion where
  text : List Char
  players : List PlayerRegion
  deriving DecidableEq

/-- Column region inside a header row: the texts of its div descendants in
document order, and the href attribute of its first anchor — none when the
column has no anchor, some none when the anchor lacks href. -/
structure ColRegion where
  divs : List (List Char)
  a_href : Option (Option (List Char))
  deriving DecidableEq

/-- Row region inside the card header. -/
structure RowRegion where
  cols : List ColRegion
  players : List PlayerRegion
  deriving DecidableEq

/-- One .lineup-col game card.  header, body and footer are none when the
corresponding select_one finds nothing; the footer otherwise holds the div
texts of its .col-8 column, if that column exists. -/
structure GameCard where
  data_league : Option (List Char)
  header : Option (List RowRegion)
  body : Option (List RotationRegion)
  footer : Option (Option (List (List Char)))
  deriving DecidableEq

/-- Source: `Player._parse_name` — prefer the desktop-name span text,
otherwise the anchor text, stripped. -/
def parse_name (a : Anchor) : List Char :=
  match a.desktop_name with
  | some s => pyStrip s
  | none => pyStrip a.text

/-- Source: `Player.parse` — the name together with the data-mlb attribute
passed through int; fails when the anchor or the attribute is missing or
the attribute is not numeric. -/
def player_parse (r : PlayerRegion) : Except PyErr (List Char × Int) :=
  match r.a with
  | none => .error (.attributeError noneSelectOneMsg)
  | some a =>
    match a.data_mlb with
    | none => .error (.typeError intOfNoneMsg)
    | some s =>
      match pyIntOfString s with
      | none => .error (.valueError intLiteralMsg)
      | some n => .ok (parse_name a, n)

/-- Source: `_parse_handedness` of both player variants — drop parentheses. -/
def parse_handedness (s : List Char) : List Char :=
  s.filter (fun c => !(c == '(' || c == ')'))

/-- Parsed pitcher: every field stays None for the placeholder. -/
structure Pitcher where
  name : Option (List Char)
  handedness : Option (List Char)
  mlb_id : Option Int
  position : Option (List Char)
  deriving DecidableEq

/-- Placeholder pitcher: all fields keep their None initial values. -/
def placeholderPitcher : Pitcher := ⟨none, none, none, none⟩

/-- Source: `Pitcher._is_valid_pitcher` — no TBD marker in the region text. -/
def is_valid_pitcher (r : PlayerRegion) : Bool :=
  !(pyIn "TBD".toList r.text)

/-- Source: `Pitcher.__init__` together with `Pitcher.parse`. -/
def pitcher_parse (r : PlayerRegion) : Except PyErr Pitcher :=
  if is_valid_pitcher r then
    match player_parse r with
    | .error e => .error e
    | .ok (name, mlb_id) =>
      match (clean_player r.text).getLast? with
      | none => .error (.indexError listIndexMsg)
      | some lastLine =>
        .ok ⟨some name, some (parse_handedness lastLine), some mlb_id, some "P".toList⟩
  else .ok placeholderPitcher

/-- Parsed batter. -/
structure Batter where
  order : Option Nat
  name : List Char
  handedness : List Char
  mlb_id : Int
  position : List Char
  deriving DecidableEq

/-- Source: `Batter.__init__` together with `Batter.parse` — the last
cleaned line must split on a space into the handedness and position tokens,
the first cleaned line yields the batting order. -/
def batter_parse (r : PlayerRegion) : Except PyErr Batter :=
  let p := clean_player r.text
  match p.getLast? with
  | none => .error (.indexError listIndexMsg)
  | some lastLine =>
    match pySplitOn ' ' lastLine with
    | [hand_str, pos_str] =>
      match player_parse r with
      | .error e => .error e
      | .ok (name, mlb_id) =>
        .ok ⟨extract_int (p.headD []), name, parse_handedness hand_str, mlb_id, pos_str⟩
    | [] => .error (.valueError unpackTooFewMsg)
    | [_] => .error (.valueError unpackTooFewMsg)
    | _ => .error (.valueError unpackTooManyMsg)

/-- Source: `Pitcher.record` — `Player.record` merged with the position. -/
def pitcher_record (p : Pitcher) : Dict :=
  dictMerge
    [("ID", vOptInt p.mlb_id), ("Name", vOptStr p.name), ("Handedness", vOptStr p.handedness)]
    [("Position", vOptStr p.position)]

/-- Source: `Batter.record` — `Player.record` merged with position and
order. -/
def batter_record (b : Batter) : Dict :=
  dictMerge
    [("ID", .vInt b.mlb_id), ("Name", .vStr b.name), ("Handedness", .vStr b.handedness)]
    [("Position", .vStr b.position), ("Order", vOptNat b.order)]

/-- Parsed team. -/
structure Team where
  name : List Char
  abbreviation : List Char
  pitcher : Pitcher
  rotation : List Batter
  deriving DecidableEq

/-- Source: `Team._is_valid_rotation` — the lowercased region text does not
contain the unreleased-lineup marker. -/
def is_valid_rotation (r : RotationRegion) : Bool :=
  !(pyIn "no lineup released".toList (r.text.map Char.toLower))

/-- Error-propagating loop over a list: the semantics of a Python for loop
constructing one object per element. -/
def mapExc (f : α → Except PyErr β) : List α → Except PyErr (List β)
  | [] => .ok []
  | x :: xs =>
    match f x with
    | .error e => .error e
    | .ok y =>
      match mapExc f xs with
      | .error e => .error e
      | .ok ys => .ok (y :: ys)

/-- Source: `Team._parse_rotation`, including the stray second append of
the loop variable after the loop, and the unbound-variable NameError when
the loop body never ran. -/
def parse_rotation (r : RotationRegion) : Except PyErr (List Batter) :=
  if is_valid_rotation r then
    match mapExc batter_parse r.players with
    | .error e => .error e
    | .ok batters =>
      match batters.getLast? with
      | none => .error (.nameError unboundBatterMsg)
      | some b => .ok (batters ++ [b])
  else .ok []

/-- Source: `Team._parse_name` — stripped text of the first div. -/
def parse_team_name (c : ColRegion) : Except PyErr (List Char) :=
  match c.divs.head? with
  | none => .error (.attributeError noneGetTextMsg)
  | some t => .ok (pyStrip t)

/-- Source: `Team._parse_abbreviation` — last path segment of the anchor
href, upper-cased. -/
def parse_abbreviation (c : ColRegion) : Except PyErr (List Char) :=
  match c.a_href with
  | none => .error (.attributeError noneAttrsMsg)
  | some none => .error (.attributeError noneSplitMsg)
  | some (some href) => .ok (((pySplitOn '/' href).getLastD []).map Char.toUpper)

/-- Source: `Team.parse` via `Team.__init__` — name, abbreviation, pitcher
and rotation, in that order. -/
def team_parse (ids : ColRegion) (pitcherR : PlayerRegion) (rotationR : RotationRegion) :
    Except PyErr Team :=
  match parse_team_name ids with
  | .error e => .error e
  | .ok name =>
    match parse_abbreviation ids with
    | .error e => .error e
    | .ok abbr =>
      match pitcher_parse pitcherR with
      | .error e => .error e
      | .ok p =>
        match parse_rotation rotationR with
        | .error e => .error e
        | .ok rot => .ok ⟨name, abbr, p, rot⟩

/-- Source: `Team._add_record` — team fields merged under a player record. -/
def team_add_record (t : Team) (r : Dict) : Dict :=
  dictMerge [("Team Name", .vStr t.name), ("Team Abbreviation", .vStr t.abbreviation)] r

/-- Source: `Team.records` — the pitcher record first, then one record per
rotation batter, each merged with the team fields. -/
def Team.records (t : Team) : List Dict :=
  ((pitcher_record t.pitcher) :: t.rotation.map batter_record).map (team_add_record t)

/-- Parsed game. -/
structure Game where
  home : Team
  away : Team
  time : List Char
  farenheit : Option Nat
  precipitation : Option Nat
  deriving DecidableEq

/-- Source: `Game._parse_time` — stripped text of the last div of the time
column. -/
def parse_time (c : ColRegion) : Except PyErr (List Char) :=
  match c.divs.getLast? with
  | none => .error (.indexError listIndexMsg)
  | some t => .ok (pyStrip t)

/-- Source: `Game._parse_header` — first row gives the two identity columns
(home first, away last) and the time column (second); second row must hold
exactly two pitcher regions. -/
def parse_header (header : Option (List RowRegion)) :
    Except PyErr (ColRegion × ColRegion × ColRegion × PlayerRegion × PlayerRegion) :=
  match header with
  | none => .error (.attributeError noneSelectMsg)
  | some [] => .error (.indexError listIndexMsg)
  | some (row0 :: restRows) =>
    match row0.cols with
    | c0 :: c1 :: restCols =>
      match restRows with
      | [] => .error (.indexError listIndexMsg)
      | row1 :: _ =>
        match row1.players with
        | [hp, ap] => .ok (c1, c0, (c0 :: c1 :: restCols).getLastD c0, hp, ap)
        | [] => .error (.valueError unpackTooFewMsg)
        | [_] => .error (.valueError unpackTooFewMsg)
        | _ => .error (.valueError unpackTooManyMsg)
    | _ => .error (.indexError listIndexMsg)

/-- Source: `Game._parse_body` — exactly two rotation columns, home first. -/
def parse_body (body : Option (List RotationRegion)) :
    Except PyErr (RotationRegion × RotationRegion) :=
  match body with
  | none => .error (.attributeError noneSelectMsg)
  | some [hr, ar] => .ok (hr, ar)
  | some [] => .error (.valueError unpackTooFewMsg)
  | some [_] => .error (.valueError unpackTooFewMsg)
  | some _ => .error (.valueError unpackTooManyMsg)

/-- Source: `Game._parse_footer` — the first two divs of the weather
column, temperature then precipitation. -/
def parse_footer (footer : Option (Option (List (List Char)))) :
    Except PyErr (List Char × List Char) :=
  match footer with
  | none => .error (.attributeError noneSelectOneMsg)
  | some none => .error (.attributeError noneSelectMsg)
  | some (some (d0 :: d1 :: _)) => .ok (d0, d1)
  | some (some _) => .error (.indexError listIndexMsg)

/-- Source: `Game.parse` — header, body and footer regions, then the home
and away teams, then the time and the two weather numbers. -/
def game_parse (gc : GameCard) : Except PyErr Game :=
  match parse_header gc.header with
  | .error e => .error e
  | .ok (gametime, home_ids, away_ids, hp, ap) =>
    match parse_body gc.body with
    | .error e => .error e
    | .ok (hr, ar) =>
      match parse_footer gc.footer with
      | .error e => .error e
      | .ok (fdiv, pdiv) =>
        match team_parse home_ids hp hr with
        | .error e => .error e
        | .ok home =>
          match team_parse away_ids ap ar with
          | .error e => .error e
          | .ok away =>
            match parse_time gametime with
            | .error e => .error e
            | .ok time => .ok ⟨home, away, time, extract_int fdiv, extract_int pdiv⟩

/-- Source: `Game._add_record`.  In the source the Is Home flag is the
Python comparison team == self.home, which on Team objects is object
identity; `Game.records` passes the home object itself and then the
distinct away object, so the flag is the constant supplied here. -/
def game_add_record (g : Game) (team_record : Dict) (opp : Team) (ih : Bool) : Dict :=
  dictMerge
    [("Time", .vStr g.time), ("Farenheit", vOptNat g.farenheit),
     ("Precipitation", vOptNat g.precipitation), ("Is Home", .vBool ih),
     ("Opponent Name", .vStr opp.name), ("Opponent Abbreviation", .vStr opp.abbreviation)]
    team_record

/-- Source: `Game.records` — the home records first, then the away records. -/
def Game.records (g : Game) : List Dict :=
  (Team.records g.home).map (fun r => game_add_record g r g.away true)
    ++ (Team.records g.away).map (fun r => game_add_record g r g.home false)

/-- Document model for `DateGames._find_games`: the .ccm-page containers in
document order; none for a container with no .lineups section, otherwise
the .lineup-col cards of its .lineups section. -/
abbrev Doc := List (Option (List GameCard))

/-- Source: `DateGames._validate_games` — keep the cards that carry the
data-league attribute. -/
def validate_games (cards : List GameCard) : List GameCard :=
  cards.filter (fun c => c.data_league.isSome)

/-- Source: `DateGames._find_games` — the validated cards of the first
container that has a lineups section, or the empty list. -/
def find_games : Doc → List GameCard
  | [] => []
  | none :: rest => find_games rest
  | some cards :: _ => validate_games cards

/-- Source: `DateGames.parse` — fail when no card was discovered, else
construct one Game per card, in order. -/
def dateGames_parse (doc : Doc) : Except PyErr (List Game) :=
  match find_games doc with
  | [] => .error (.valueError noGamesMsg)
  | c :: cs => mapExc game_parse (c :: cs)

/-- DateGames state: the date string, the parsed games, and the memoised
records list, initially empty. -/
structure DateGames where
  date : List Char
  games : List Game
  recordsCache : List Dict
  deriving DecidableEq

/-- Source: the accumulation loop of `DateGames.records`. -/
def games_records (gs : List Game) : List Dict :=
  gs.foldl (fun acc g => acc ++ Game.records g) []

/-- Source: the cache-miss branch of `DateGames.records`: gather every game
record and set the Date key on each. -/
def compute_records (s : DateGames) : List Dict :=
  (games_records s.games).map (fun r => dictSet r "Date" (.vStr s.date))

/-- Source: `DateGames.records` — return the memoised list when it is
nonempty, else compute, store and return. -/
def DateGames.records (s : DateGames) : List Dict × DateGames :=
  if s.recordsCache.isEmpty then
    (compute_records s, { s with recordsCache := compute_records s })
  else (s.recordsCache, s)

deriving instance DecidableEq for Except


theorem takeWhile_append_of_all {p : Char → Bool} (l1 l2 : List Char)
    (h : ∀ c ∈ l1, p c = true) :
    (l1 ++ l2).takeWhile p = l1 ++ l2.takeWhile p := by
  induction l1 with
  | nil => simp
  | cons c t ih =>
    have hc : p c = true := h c (by simp)
    simp [List.takeWhile_cons, hc, ih (fun x hx => h x (by simp [hx]))]

theorem takeWhile_eq_nil_of_head {p : Char → Bool} (l : List Char)
    (h : ∀ c ∈ l.take 1, p c = false) :
    l.takeWhile p = [] := by
  cases l with
  | nil => rfl
  | cons c t => simp [List.takeWhile_cons, h c (by simp)]

theorem extract_int_eq_none (s : List Char) (h : ∀ c ∈ s, c.isDigit = false) :
    extract_int s = none := by
  induction s with
  | nil => rfl
  | cons c t ih =>
    simp only [extract_int, h c (by simp), Bool.false_eq_true, if_false]
    exact ih (fun x hx => h x (by simp [hx]))

theorem extract_int_first_run (pre run post : List Char)
    (hpre : ∀ c ∈ pre, c.isDigit = false) (hne : run ≠ [])
    (hrun : ∀ c ∈ run, c.isDigit = true)
    (hpost : ∀ c ∈ post.take 1, c.isDigit = false) :
    extract_int (pre ++ run ++ post) = some (digitsToNat run) := by
  induction pre with
  | nil =>
    cases run with
    | nil => exact absurd rfl hne
    | cons d ds =>
      simp only [List.nil_append, List.cons_append, List.append_eq, extract_int,
        hrun d (by simp), if_true]
      rw [takeWhile_append_of_all ds post (fun x hx => hrun x (by simp [hx]))]
      rw [takeWhile_eq_nil_of_head post hpost]
      simp
  | cons c t ih =>
    simp only [List.cons_append, extract_int, hpre c (by simp), Bool.false_eq_true, if_false]
    exact ih (fun x hx => hpre x (by simp [hx]))



theorem batter_parse_order (r : PlayerRegion) (b : Batter)
    (h : batter_parse r = .ok b) :
    b.order = extract_int ((clean_player r.text).headD []) := by
  simp only [batter_parse] at h
  cases hL : (clean_player r.text).getLast? with
  | none => simp only [hL] at h; exact Except.noConfusion h
  | some lastLine =>
    simp only [hL] at h
    cases hS : pySplitOn ' ' lastLine with
    | nil => simp only [hS] at h; exact Except.noConfusion h
    | cons w1 tl1 =>
      cases tl1 with
      | nil => simp only [hS] at h; exact Except.noConfusion h
      | cons w2 tl2 =>
        cases tl2 with
        | cons w3 tl3 => simp only [hS] at h; exact Except.noConfusion h
        | nil =>
          simp only [hS] at h
          cases hP : player_parse r with
          | error e => simp only [hP] at h; exact Except.noConfusion h
          | ok v =>
            obtain ⟨nm, id⟩ := v
            simp only [hP] at h
            injection h with h1
            rw [← h1]
theorem c4_tbd_pitcher (r : PlayerRegion) (h : pyIn "TBD".toList r.text = true) :
    pitcher_parse r = .ok placeholderPitcher
    ∧ placeholderPitcher.name = none ∧ placeholderPitcher.mlb_id = none
    ∧ placeholderPitcher.handedness = none ∧ placeholderPitcher.position = none
    ∧ dictGet (pitcher_record placeholderPitcher) "ID" = some .vNone
    ∧ dictGet (pitcher_record placeholderPitcher) "Name" = some .vNone
    ∧ dictGet (pitcher_record placeholderPitcher) "Handedness" = some .vNone
    ∧ dictGet (pitcher_record placeholderPitcher) "Position" = some .vNone := by
  refine ⟨?_, rfl, rfl, rfl, rfl, by decide, by decide, by decide, by decide⟩
  have hv : is_valid_pitcher r = false := by unfold is_valid_pitcher; rw [h]; rfl
  unfold pitcher_parse
  rw [hv]
  simp

theorem c8_league_id (r : PlayerRegion) (a : Anchor) (ha : r.a = some a) :
    (a.data_mlb = none → player_parse r = .error (.typeError intOfNoneMsg))
    ∧ (∀ s, a.data_mlb = some s → pyIntOfString s = none →
        player_parse r = .error (.valueError intLiteralMsg))
    ∧ (∀ s n, a.data_mlb = some s → pyIntOfString s = some n →
        player_parse r = .ok (parse_name a, n)) := by
  refine ⟨?_, ?_, ?_⟩
  · intro h
    simp only [player_parse, ha, h]
  · intro s hs hn
    simp only [player_parse, ha, hs, hn]
  · intro s n hs hn
    simp only [player_parse, ha, hs, hn]

/-- Claim C7: `extract_int` returns the integer value of the first
contiguous run of decimal digits when one exists and none otherwise;
consequently a batter whose order line has no digit characters parses
with an absent order, never zero. -/
theorem c7_extract_int_spec :
    (∀ s : List Char, (∀ c ∈ s, c.isDigit = false) → extract_int s = none)
    ∧ (∀ pre run post : List Char, (∀ c ∈ pre, c.isDigit = false) → run ≠ [] →
        (∀ c ∈ run, c.isDigit = true) → (∀ c ∈ post.take 1, c.isDigit = false) →
        extract_int (pre ++ run ++ post) = some (digitsToNat run))
    ∧ (∀ (r : PlayerRegion) (b : Batter), batter_parse r = .ok b →
        (∀ c ∈ (clean_player r.text).headD [], c.isDigit = false) →
        b.order = none ∧ b.order ≠ some 0) := by
  refine ⟨extract_int_eq_none, extract_int_first_run, ?_⟩
  intro r b h hline
  have hb := batter_parse_order r b h
  rw [extract_int_eq_none _ hline] at hb
  exact ⟨hb, by simp [hb]⟩

/-- Batter region whose order line carries no digit. -/
def c7Region : PlayerRegion :=
  ⟨"x. John Doe\n(R) CF".toList,
   some ⟨some "John Doe".toList, "John Doe".toList, some "545361".toList⟩⟩

/-- Batter parsed from `c7Region`. -/
def c7Batter : Batter := ⟨none, "John Doe".toList, "R".toList, 545361, "CF".toList⟩

/-- Witness for C7 at concrete inputs. -/
theorem c7_extract_int_spec_witness :
    extract_int "abc".toList = none
    ∧ extract_int ("ab".toList ++ "12".toList ++ "c34".toList) = some (digitsToNat "12".toList)
    ∧ (c7Batter.order = none ∧ c7Batter.order ≠ some 0) :=
  ⟨c7_extract_int_spec.1 _ (by decide),
   c7_extract_int_spec.2.1 "ab".toList "12".toList "c34".toList
     (by decide) (by decide) (by decide) (by decide),
   c7_extract_int_spec.2.2 c7Region c7Batter (by decide) (by decide)⟩

/-- Witness for C4 at a concrete region. -/
theorem c4_tbd_pitcher_witness :
    pyIn "TBD".toList ("TBD".toList) = true
    ∧ pitcher_parse ⟨"TBD".toList, none⟩ = .ok placeholderPitcher :=
  ⟨by decide, (c4_tbd_pitcher ⟨"TBD".toList, none⟩ (by decide)).1⟩

/-- Anchor with no data-mlb attribute. -/
def c8AnchorNone : Anchor := ⟨none, "John Doe".toList, none⟩

/-- Anchor with a non-numeric data-mlb attribute. -/
def c8AnchorBad : Anchor := ⟨none, "John Doe".toList, some "TBD".toList⟩

/-- Anchor with a numeric data-mlb attribute. -/
def c8AnchorGood : Anchor := ⟨none, "John Doe".toList, some "545361".toList⟩

/-- Witness for C8 at three concrete anchors. -/
theorem c8_league_id_witness :
    player_parse ⟨"x".toList, some c8AnchorNone⟩ = .error (.typeError intOfNoneMsg)
    ∧ player_parse ⟨"x".toList, some c8AnchorBad⟩ = .error (.valueError intLiteralMsg)
    ∧ player_parse ⟨"x".toList, some c8AnchorGood⟩ = .ok (parse_name c8AnchorGood, 545361) :=
  ⟨(c8_league_id ⟨"x".toList, some c8AnchorNone⟩ c8AnchorNone rfl).1 rfl,
   (c8_league_id ⟨"x".toList, some c8AnchorBad⟩ c8AnchorBad rfl).2.1 _ rfl (by decide),
   (c8_league_id ⟨"x".toList, some c8AnchorGood⟩ c8AnchorGood rfl).2.2 _ 545361 rfl (by decide)⟩

/-- Helper: rotation parsing yields the empty rotation on a marked region. -/
theorem parse_rotation_marker (rr : RotationRegion)
    (h : pyIn "no lineup released".toList (rr.text.map Char.toLower) = true) :
    parse_rotation rr = .ok [] := by
  have hv : is_valid_rotation rr = false := by unfold is_valid_rotation; rw [h]; rfl
  unfold parse_rotation
  rw [hv]
  simp

/-- Helper: a team with an empty rotation contributes only its pitcher
record. -/
theorem team_records_no_rotation (t : Team) (h : t.rotation = []) :
    Team.records t = [team_add_record t (pitcher_record t.pitcher)] := by
  unfold Team.records
  rw [h]
  rfl

/-- Helper: the rotation of a successfully parsed team is the result of
`parse_rotation` on its rotation region. -/
theorem team_parse_rotation (ids : ColRegion) (pr : PlayerRegion) (rr : RotationRegion)
    (t : Team) (h : team_parse ids pr rr = .ok t) :
    parse_rotation rr = .ok t.rotation := by
  simp only [team_parse] at h
  cases h1 : parse_team_name ids with
  | error e => simp only [h1] at h; exact Except.noConfusion h
  | ok name =>
    simp only [h1] at h
    cases h2 : parse_abbreviation ids with
    | error e => simp only [h2] at h; exact Except.noConfusion h
    | ok abbr =>
      simp only [h2] at h
      cases h3 : pitcher_parse pr with
      | error e => simp only [h3] at h; exact Except.noConfusion h
      | ok p =>
        simp only [h3] at h
        cases h4 : parse_rotation rr with
        | error e => simp only [h4] at h; exact Except.noConfusion h
        | ok rot =>
          simp only [h4] at h
          injection h with h5
          rw [← h5]

/-- Claim C5: a rotation region containing the unreleased-lineup marker in
any letter case makes the parsed team carry an empty rotation, and that
team contributes only its pitcher record. -/
theorem c5_unreleased_rotation (ids : ColRegion) (pr : PlayerRegion) (rr : RotationRegion)
    (t : Team) (hm : pyIn "no lineup released".toList (rr.text.map Char.toLower) = true)
    (hp : team_parse ids pr rr = .ok t) :
    t.rotation = [] ∧ Team.records t = [team_add_record t (pitcher_record t.pitcher)] := by
  have h1 := team_parse_rotation ids pr rr t hp
  rw [parse_rotation_marker rr hm] at h1
  injection h1 with h2
  exact ⟨h2.symm, team_records_no_rotation t h2.symm⟩

/-- Identity column of the sample home team. -/
def sampleIdsCol : ColRegion := ⟨["Yankees".toList], some (some "/teams/nyy".toList)⟩

/-- Placeholder pitcher region used by witnesses. -/
def samplePitcherRegion : PlayerRegion := ⟨"TBD".toList, none⟩

/-- Unreleased rotation region used by witnesses. -/
def sampleUnreleasedRot : RotationRegion := ⟨"No Lineup Released".toList, []⟩

/-- Team parsed from the sample home regions. -/
def sampleTeamNYY : Team := ⟨"Yankees".toList, "NYY".toList, placeholderPitcher, []⟩

/-- Witness for C5 at concrete regions. -/
theorem c5_unreleased_rotation_witness :
    team_parse sampleIdsCol samplePitcherRegion sampleUnreleasedRot = .ok sampleTeamNYY
    ∧ (sampleTeamNYY.rotation = []
      ∧ Team.records sampleTeamNYY
          = [team_add_record sampleTeamNYY (pitcher_record sampleTeamNYY.pitcher)]) :=
  ⟨by decide,
   c5_unreleased_rotation sampleIdsCol samplePitcherRegion sampleUnreleasedRot
     sampleTeamNYY (by decide) (by decide)⟩

/-- Batter region describing one ordered batter. -/
def c1BatterRegion : PlayerRegion :=
  ⟨"1. John Doe\n(R) CF".toList,
   some ⟨some "John Doe".toList, "John Doe".toList, some "545361".toList⟩⟩

/-- Batter parsed from `c1BatterRegion`. -/
def c1Batter : Batter := ⟨some 1, "John Doe".toList, "R".toList, 545361, "CF".toList⟩

/-- Rotation region with exactly one player sub-region and no marker. -/
def c1RotRegion : RotationRegion := ⟨"1. John Doe (R) CF".toList, [c1BatterRegion]⟩

/-- Claim C1, bug evaluation: the source appends the last-seen batter a
second time after its loop, so a marker-free rotation region with exactly
one player sub-region parses to two batters — the single batter twice —
not to one batter per sub-region. -/
theorem c1_rotation_duplicates :
    c1RotRegion.players.length = 1
    ∧ parse_rotation c1RotRegion = .ok [c1Batter, c1Batter]
    ∧ parse_rotation c1RotRegion ≠ .ok [c1Batter] :=
  ⟨rfl, by decide, by decide⟩

/-- Claim C10: on a marker-free rotation region with no player sub-region,
rotation parsing fails with the unbound loop-variable NameError, and a
marker-free rotation region only parses successfully when it has at least
one player sub-region. -/
theorem c10_empty_rotation (r : RotationRegion) :
    (is_valid_rotation r = true → r.players = [] →
      parse_rotation r = .error (.nameError unboundBatterMsg))
    ∧ (∀ l, parse_rotation r = .ok l → is_valid_rotation r = true → r.players ≠ []) := by
  constructor
  · intro hv he
    unfold parse_rotation
    rw [he]
    simp [hv, mapExc]
  · intro l hok hv hne
    unfold parse_rotation at hok
    rw [hne] at hok
    simp [hv, mapExc] at hok

/-- Marker-free rotation region with no player sub-regions. -/
def c10EmptyRot : RotationRegion := ⟨[], []⟩

/-- Witness for C10 at concrete regions. -/
theorem c10_empty_rotation_witness :
    (is_valid_rotation c10EmptyRot = true
      ∧ parse_rotation c10EmptyRot = .error (.nameError unboundBatterMsg))
    ∧ c1RotRegion.players ≠ [] :=
  ⟨⟨by decide, (c10_empty_rotation c10EmptyRot).1 (by decide) rfl⟩,
   (c10_empty_rotation c1RotRegion).2 [c1Batter, c1Batter] (by decide) (by decide)⟩

/-- Claim C6: calling records twice with no intervening mutation returns
identical output; the list is memoised after the first computation. -/
theorem c6_records_idempotent (s : DateGames) :
    ((DateGames.records s).2.records).1 = (DateGames.records s).1 := by
  unfold DateGames.records
  by_cases h : s.recordsCache.isEmpty
  · simp only [h, if_true]
    by_cases h2 : (compute_records s).isEmpty
    · simp only [h2, if_true]
      rfl
    · simp [h2]
  · simp [h]

/-- Helper: a team contributes one record per rotation batter plus one. -/
theorem team_records_length (t : Team) :
    (Team.records t).length = t.rotation.length + 1 := by
  simp [Team.records]

/-- Helper: a game contributes the records of both of its teams. -/
theorem game_records_length (g : Game) :
    (Game.records g).length
      = (g.home.rotation.length + 1) + (g.away.rotation.length + 1) := by
  simp [Game.records, team_records_length]

/-- Helper: length of the accumulated game records. -/
theorem games_records_foldl_length (gs : List Game) (acc : List Dict) :
    (gs.foldl (fun a g => a ++ Game.records g) acc).length
      = acc.length
        + (gs.map (fun g => (g.home.rotation.length + 1) + (g.away.rotation.length + 1))).sum := by
  induction gs generalizing acc with
  | nil => simp
  | cons g tl ih =>
    simp only [List.foldl_cons, ih, List.map_cons, List.sum_cons, List.length_append,
      game_records_length]
    omega

/-- Claim C2: on a document that parses into at least its games, the
record list holds one record per batter plus one pitcher record per team,
summed over both teams of every game. -/
theorem c2_records_count (doc : Doc) (d : List Char) (games : List Game)
    (h : dateGames_parse doc = .ok games) :
    ((DateGames.mk d games []).records).1.length
      = (games.map (fun g => (g.home.rotation.length + 1) + (g.away.rotation.length + 1))).sum := by
  unfold DateGames.records
  simp [compute_records, games_records, games_records_foldl_length]

/-- Identity column of the sample away team. -/
def sampleAwayIds : ColRegion := ⟨["Mets".toList], some (some "/teams/nym".toList)⟩

/-- Sample game card: TBD pitchers, unreleased rotations, temperature 72,
no precipitation value. -/
def sampleCard : GameCard :=
  ⟨some "mlb".toList,
   some [⟨[sampleIdsCol, ⟨["7:05 PM".toList], none⟩, sampleAwayIds], []⟩,
         ⟨[], [samplePitcherRegion, samplePitcherRegion]⟩],
   some [sampleUnreleasedRot, sampleUnreleasedRot],
   some (some ["72".toList, "".toList])⟩

/-- Team parsed from the sample away regions. -/
def sampleTeamNYM : Team := ⟨"Mets".toList, "NYM".toList, placeholderPitcher, []⟩

/-- Game parsed from the sample card. -/
def sampleGame : Game := ⟨sampleTeamNYY, sampleTeamNYM, "7:05 PM".toList, some 72, none⟩

/-- Witness for C2 at a concrete one-game document. -/
theorem c2_records_count_witness :
    dateGames_parse [some [sampleCard]] = .ok [sampleGame]
    ∧ ((DateGames.mk "2021-03-17".toList [sampleGame] []).records).1.length
        = ([sampleGame].map
            (fun g => (g.home.rotation.length + 1) + (g.away.rotation.length + 1))).sum :=
  ⟨by decide,
   c2_records_count [some [sampleCard]] "2021-03-17".toList [sampleGame] (by decide)⟩

/-- Modelled from the spec words for record derivation: one record per
player combining, by plain concatenation, the shared game fields (time,
temperature, precipitation, the home flag and the opposing team identity),
then the own team identity, then the player record fields. -/
def specFullRecord (g : Game) (t opp : Team) (ih : Bool) (pr : Dict) : Dict :=
  [("Time", .vStr g.time), ("Farenheit", vOptNat g.farenheit),
   ("Precipitation", vOptNat g.precipitation), ("Is Home", .vBool ih),
   ("Opponent Name", .vStr opp.name), ("Opponent Abbreviation", .vStr opp.abbreviation),
   ("Team Name", .vStr t.name), ("Team Abbreviation", .vStr t.abbreviation)]
    ++ pr

/-- Modelled from the spec words: the home side records first, within a
side the pitcher record first and then the rotation in order, the home
flag true exactly on the home side, the opponent fields taken from the
other team. -/
def specGameRecords (g : Game) : List Dict :=
  (pitcher_record g.home.pitcher :: g.home.rotation.map batter_record).map
      (specFullRecord g g.home g.away true)
    ++ (pitcher_record g.away.pitcher :: g.away.rotation.map batter_record).map
      (specFullRecord g g.away g.home false)

/-- Helper: the dict merges of a pitcher record coincide with
concatenation, the key sets being disjoint. -/
theorem full_record_pitcher (g : Game) (t opp : Team) (ih : Bool) (p : Pitcher) :
    game_add_record g (team_add_record t (pitcher_record p)) opp ih
      = specFullRecord g t opp ih (pitcher_record p) := rfl

/-- Helper: the dict merges of a batter record coincide with
concatenation, the key sets being disjoint. -/
theorem full_record_batter (g : Game) (t opp : Team) (ih : Bool) (b : Batter) :
    game_add_record g (team_add_record t (batter_record b)) opp ih
      = specFullRecord g t opp ih (batter_record b) := rfl

/-- Claim C9: `Game.records` emits the home records before the away
records, the pitcher first within each side followed by the rotation in
order, each record combining the player fields with the team identity,
the shared game fields, the home flag and the opposing team identity. -/
theorem c9_game_records_shape (g : Game) : Game.records g = specGameRecords g := by
  unfold Game.records specGameRecords Team.records
  simp only [List.map_cons, List.map_map]
  rfl

/-- Helper: a propagated error differs from the no-games error when its
payload does. -/
theorem error_ne_of_ne {α : Type} {e : PyErr} (h : e ≠ .valueError noGamesMsg) :
    (Except.error e : Except PyErr α) ≠ .error (.valueError noGamesMsg) := by
  intro hc
  injection hc with h2
  exact h h2

/-- Helper: the payload of a propagated error inherits the inequality. -/
theorem ne_payload {α : Type} {x : Except PyErr α} {e : PyErr}
    (hx : x ≠ .error (.valueError noGamesMsg)) (h : x = .error e) :
    e ≠ .valueError noGamesMsg := by
  intro hc
  exact hx (by rw [h, hc])

/-- Helper: identity parsing never raises the no-games error. -/
theorem player_parse_ne_noGames (r : PlayerRegion) :
    player_parse r ≠ .error (.valueError noGamesMsg) := by
  intro hc
  unfold player_parse at hc
  cases hA : r.a with
  | none => simp only [hA] at hc; exact absurd hc (by decide)
  | some a =>
    simp only [hA] at hc
    cases hB : a.data_mlb with
    | none => simp only [hB] at hc; exact absurd hc (by decide)
    | some s =>
      simp only [hB] at hc
      cases hC : pyIntOfString s with
      | none => simp only [hC] at hc; exact absurd hc (by decide)
      | some n => simp only [hC] at hc; exact Except.noConfusion hc

/-- Helper: pitcher parsing never raises the no-games error. -/
theorem pitcher_parse_ne_noGames (r : PlayerRegion) :
    pitcher_parse r ≠ .error (.valueError noGamesMsg) := by
  intro hc
  unfold pitcher_parse at hc
  split at hc
  · cases hP : player_parse r with
    | error e =>
      simp only [hP] at hc
      injection hc with h2
      exact ne_payload (player_parse_ne_noGames r) hP h2
    | ok v =>
      obtain ⟨nm, id⟩ := v
      simp only [hP] at hc
      cases hL : (clean_player r.text).getLast? with
      | none => simp only [hL] at hc; exact absurd hc (by decide)
      | some lastLine => simp only [hL] at hc; exact Except.noConfusion hc
  · exact Except.noConfusion hc

/-- Helper: batter parsing never raises the no-games error. -/
theorem batter_parse_ne_noGames (r : PlayerRegion) :
    batter_parse r ≠ .error (.valueError noGamesMsg) := by
  intro hc
  simp only [batter_parse] at hc
  cases hL : (clean_player r.text).getLast? with
  | none => simp only [hL] at hc; exact absurd hc (by decide)
  | some lastLine =>
    simp only [hL] at hc
    cases hS : pySplitOn ' ' lastLine with
    | nil => simp only [hS] at hc; exact absurd hc (by decide)
    | cons w1 tl1 =>
      cases tl1 with
      | nil => simp only [hS] at hc; exact absurd hc (by decide)
      | cons w2 tl2 =>
        cases tl2 with
        | cons w3 tl3 => simp only [hS] at hc; exact absurd hc (by decide)
        | nil =>
          simp only [hS] at hc
          cases hP : player_parse r with
          | error e =>
            simp only [hP] at hc
            injection hc with h2
            exact ne_payload (player_parse_ne_noGames r) hP h2
          | ok v =>
            obtain ⟨nm, id⟩ := v
            simp only [hP] at hc
            exact Except.noConfusion hc

/-- Helper: the object-constructing loop never raises the no-games error
when its body never does. -/
theorem mapExc_ne_noGames {α β : Type} (f : α → Except PyErr β)
    (hf : ∀ x, f x ≠ .error (.valueError noGamesMsg)) (l : List α) :
    mapExc f l ≠ .error (.valueError noGamesMsg) := by
  induction l with
  | nil => intro hc; exact Except.noConfusion hc
  | cons x xs ih =>
    intro hc
    unfold mapExc at hc
    cases h1 : f x with
    | error e =>
      simp only [h1] at hc
      injection hc with h2
      exact ne_payload (hf x) h1 h2
    | ok y =>
      simp only [h1] at hc
      cases h2 : mapExc f xs with
      | error e =>
        simp only [h2] at hc
        injection hc with h3
        exact ne_payload ih h2 h3
      | ok ys => simp only [h2] at hc; exact Except.noConfusion hc

/-- Helper: rotation parsing never raises the no-games error. -/
theorem parse_rotation_ne_noGames (r : RotationRegion) :
    parse_rotation r ≠ .error (.valueError noGamesMsg) := by
  intro hc
  unfold parse_rotation at hc
  split at hc
  · cases hM : mapExc batter_parse r.players with
    | error e =>
      simp only [hM] at hc
      injection hc with h2
      exact ne_payload (mapExc_ne_noGames batter_parse batter_parse_ne_noGames r.players) hM h2
    | ok batters =>
      simp only [hM] at hc
      cases hL : batters.getLast? with
      | none => simp only [hL] at hc; exact absurd hc (by decide)
      | some b => simp only [hL] at hc; exact Except.noConfusion hc
  · exact Except.noConfusion hc

/-- Helper: team-name parsing never raises the no-games error. -/
theorem parse_team_name_ne_noGames (c : ColRegion) :
    parse_team_name c ≠ .error (.valueError noGamesMsg) := by
  intro hc
  unfold parse_team_name at hc
  cases h : c.divs.head? with
  | none => simp only [h] at hc; exact absurd hc (by decide)
  | some t => simp only [h] at hc; exact Except.noConfusion hc

/-- Helper: abbreviation parsing never raises the no-games error. -/
theorem parse_abbreviation_ne_noGames (c : ColRegion) :
    parse_abbreviation c ≠ .error (.valueError noGamesMsg) := by
  intro hc
  unfold parse_abbreviation at hc
  cases h : c.a_href with
  | none => simp only [h] at hc; exact absurd hc (by decide)
  | some o =>
    simp only [h] at hc
    cases o with
    | none => exact absurd hc (by decide)
    | some href => exact Except.noConfusion hc

/-- Helper: time parsing never raises the no-games error. -/
theorem parse_time_ne_noGames (c : ColRegion) :
    parse_time c ≠ .error (.valueError noGamesMsg) := by
  intro hc
  unfold parse_time at hc
  cases h : c.divs.getLast? with
  | none => simp only [h] at hc; exact absurd hc (by decide)
  | some t => simp only [h] at hc; exact Except.noConfusion hc

/-- Helper: team parsing never raises the no-games error. -/
theorem team_parse_ne_noGames (ids : ColRegion) (pr : PlayerRegion) (rr : RotationRegion) :
    team_parse ids pr rr ≠ .error (.valueError noGamesMsg) := by
  intro hc
  unfold team_parse at hc
  cases h1 : parse_team_name ids with
  | error e =>
    simp only [h1] at hc
    injection hc with hx
    exact ne_payload (parse_team_name_ne_noGames ids) h1 hx
  | ok name =>
    simp only [h1] at hc
    cases h2 : parse_abbreviation ids with
    | error e =>
      simp only [h2] at hc
      injection hc with hx
      exact ne_payload (parse_abbreviation_ne_noGames ids) h2 hx
    | ok abbr =>
      simp only [h2] at hc
      cases h3 : pitcher_parse pr with
      | error e =>
        simp only [h3] at hc
        injection hc with hx
        exact ne_payload (pitcher_parse_ne_noGames pr) h3 hx
      | ok p =>
        simp only [h3] at hc
        cases h4 : parse_rotation rr with
        | error e =>
          simp only [h4] at hc
          injection hc with hx
          exact ne_payload (parse_rotation_ne_noGames rr) h4 hx
        | ok rot => simp only [h4] at hc; exact Except.noConfusion hc

/-- Helper: header parsing never raises the no-games error. -/
theorem parse_header_ne_noGames (header : Option (List RowRegion)) :
    parse_header header ≠ .error (.valueError noGamesMsg) := by
  intro hc
  unfold parse_header at hc
  cases header with
  | none => exact absurd hc (by decide)
  | some rows =>
    cases rows with
    | nil => exact absurd hc (by decide)
    | cons row0 restRows =>
      obtain ⟨cols0, players0⟩ := row0
      cases cols0 with
      | nil => injection hc with h2; exact PyErr.noConfusion h2
      | cons c0 tl =>
        cases tl with
        | nil => injection hc with h2; exact PyErr.noConfusion h2
        | cons c1 restCols =>
          cases restRows with
          | nil => injection hc with h2; exact PyErr.noConfusion h2
          | cons row1 more =>
            obtain ⟨cols1, players1⟩ := row1
            cases players1 with
            | nil => injection hc with h2; injection h2 with h3; exact absurd h3 (by decide)
            | cons p1 ptl =>
              cases ptl with
              | nil => injection hc with h2; injection h2 with h3; exact absurd h3 (by decide)
              | cons p2 ptl2 =>
                cases ptl2 with
                | nil => exact Except.noConfusion hc
                | cons p3 ptl3 =>
                  injection hc with h2; injection h2 with h3; exact absurd h3 (by decide)

/-- Helper: body parsing never raises the no-games error. -/
theorem parse_body_ne_noGames (body : Option (List RotationRegion)) :
    parse_body body ≠ .error (.valueError noGamesMsg) := by
  intro hc
  unfold parse_body at hc
  cases body with
  | none => exact absurd hc (by decide)
  | some l =>
    cases l with
    | nil => exact absurd hc (by decide)
    | cons r1 tl =>
      cases tl with
      | nil => injection hc with h2; injection h2 with h3; exact absurd h3 (by decide)
      | cons r2 tl2 =>
        cases tl2 with
        | nil => exact Except.noConfusion hc
        | cons r3 tl3 => injection hc with h2; injection h2 with h3; exact absurd h3 (by decide)

/-- Helper: footer parsing never raises the no-games error. -/
theorem parse_footer_ne_noGames (footer : Option (Option (List (List Char)))) :
    parse_footer footer ≠ .error (.valueError noGamesMsg) := by
  intro hc
  unfold parse_footer at hc
  cases footer with
  | none => exact absurd hc (by decide)
  | some o =>
    cases o with
    | none => exact absurd hc (by decide)
    | some divs =>
      cases divs with
      | nil => exact absurd hc (by decide)
      | cons d0 tl =>
        cases tl with
        | nil => injection hc with h2; exact PyErr.noConfusion h2
        | cons d1 tl2 => exact Except.noConfusion hc

/-- Helper: game parsing never raises the no-games error. -/
theorem game_parse_ne_noGames (gc : GameCard) :
    game_parse gc ≠ .error (.valueError noGamesMsg) := by
  intro hc
  unfold game_parse at hc
  cases h1 : parse_header gc.header with
  | error e =>
    simp only [h1] at hc
    injection hc with hx
    exact ne_payload (parse_header_ne_noGames gc.header) h1 hx
  | ok v =>
    obtain ⟨gametime, home_ids, away_ids, hp, ap⟩ := v
    simp only [h1] at hc
    cases h2 : parse_body gc.body with
    | error e =>
      simp only [h2] at hc
      injection hc with hx
      exact ne_payload (parse_body_ne_noGames gc.body) h2 hx
    | ok w =>
      obtain ⟨hr, ar⟩ := w
      simp only [h2] at hc
      cases h3 : parse_footer gc.footer with
      | error e =>
        simp only [h3] at hc
        injection hc with hx
        exact ne_payload (parse_footer_ne_noGames gc.footer) h3 hx
      | ok u =>
        obtain ⟨fdiv, pdiv⟩ := u
        simp only [h3] at hc
        cases h4 : team_parse home_ids hp hr with
        | error e =>
          simp only [h4] at hc
          injection hc with hx
          exact ne_payload (team_parse_ne_noGames home_ids hp hr) h4 hx
        | ok home =>
          simp only [h4] at hc
          cases h5 : team_parse away_ids ap ar with
          | error e =>
            simp only [h5] at hc
            injection hc with hx
            exact ne_payload (team_parse_ne_noGames away_ids ap ar) h5 hx
          | ok away =>
            simp only [h5] at hc
            cases h6 : parse_time gametime with
            | error e =>
              simp only [h6] at hc
              injection hc with hx
              exact ne_payload (parse_time_ne_noGames gametime) h6 hx
            | ok time => simp only [h6] at hc; exact Except.noConfusion hc

/-- Decidable premise of the no-games condition: no game card in any
container of the document carries the data-league marker. -/
def noMarkerDoc : Doc → Bool
  | [] => true
  | none :: rest => noMarkerDoc rest
  | some cards :: rest => cards.all (fun c => c.data_league.isNone) && noMarkerDoc rest

/-- Helper: a document with no marker anywhere discovers no cards. -/
theorem find_games_nil_of_noMarker (doc : Doc) (h : noMarkerDoc doc = true) :
    find_games doc = [] := by
  induction doc with
  | nil => rfl
  | cons cont rest ih =>
    cases cont with
    | none => exact ih h
    | some cards =>
      unfold noMarkerDoc at h
      rw [Bool.and_eq_true] at h
      show validate_games cards = []
      unfold validate_games
      rw [List.filter_eq_nil_iff]
      intro c hmem
      have hn := List.all_eq_true.mp h.1 c hmem
      simp only [Option.isNone_iff_eq_none] at hn
      simp [hn]

/-- Claim C3, amended: a document whose cards nowhere carry the league
marker fails with the distinct no-games ValueError; a document whose first
lineups-bearing container keeps at least one validated card never fails
with that condition, every other failure carrying a different exception or
message. -/
theorem c3_no_games_condition (doc : Doc) :
    (noMarkerDoc doc = true → dateGames_parse doc = .error (.valueError noGamesMsg))
    ∧ (find_games doc ≠ [] → dateGames_parse doc ≠ .error (.valueError noGamesMsg)) := by
  constructor
  · intro h
    unfold dateGames_parse
    rw [find_games_nil_of_noMarker doc h]
  · intro h
    unfold dateGames_parse
    cases hF : find_games doc with
    | nil => exact absurd hF h
    | cons c cs => exact mapExc_ne_noGames game_parse game_parse_ne_noGames (c :: cs)

/-- Game card carrying no data-league attribute. -/
def noLeagueCard : GameCard := ⟨none, none, none, none⟩

/-- Document whose first lineups container holds only an invalid card
while its second container holds a fully valid card. -/
def c3Doc : Doc := [some [noLeagueCard], some [sampleCard]]

/-- Claim C3 counterexample: this document contains a valid game card that
carries the league marker and parses to a game, yet the top-level parse
still fails with the no-games condition, because card discovery stops at
the first container that has a lineups section. -/
theorem c3_counterexample :
    sampleCard.data_league.isSome = true
    ∧ game_parse sampleCard = .ok sampleGame
    ∧ dateGames_parse c3Doc = .error (.valueError noGamesMsg) :=
  ⟨rfl, by decide, by decide⟩

/-- Witness for the amended C3 at concrete documents. -/
theorem c3_no_games_condition_witness :
    (noMarkerDoc [some [noLeagueCard]] = true
      ∧ dateGames_parse [some [noLeagueCard]] = .error (.valueError noGamesMsg))
    ∧ (find_games [some [sampleCard]] ≠ []
      ∧ dateGames_parse [some [sampleCard]] ≠ .error (.valueError noGamesMsg)) :=
  ⟨⟨by decide, (c3_no_games_condition [some [noLeagueCard]]).1 (by decide)⟩,
   ⟨by decide, (c3_no_games_condition [some [sampleCard]]).2 (by decide)⟩⟩
